import Mathlib

/-!
Shallow embedding of `src/api/session.js` (the Vercel serverless session
endpoint handler of the cyber-agent repository) together with theorems
checking the natural-language specification against it.

The handler is modelled as a pure function from the process configuration,
the inbound request, the in-memory rate-limit ledger, the current clock
value (epoch milliseconds) and the sequence of upstream responses to a
result holding the HTTP response, the updated ledger, the number of
outbound attempts made and the list of backoff delays awaited.  The one
JavaScript fault the file can raise outside its try block (evaluation of
the undefined identifier `origin` on the rate-limit key line) is modelled
with `Except`.
-/

namespace CyberAgent

/-! ## Constants from the source -/

def RATE_LIMIT_WINDOW_MS : Int := 60 * 1000

def RATE_LIMIT_MAX : Nat := 8

def FETCH_TIMEOUT_MS : Nat := 15000

def MAX_SESSION_RETRIES : Nat := 2

def DEFAULT_ALLOWED : List String :=
  ["https://cyber-agent-rho.vercel.app", "http://localhost:3000", "http://127.0.0.1:3000"]

def DEFAULT_INSTRUCTIONS : String :=
  "Je bent een cyberpunk AI-agent die hulp biedt bij taken, code en korte conversatie. Wees vriendelijk, helder en beknopt. Reageer primair in het Nederlands; geef korte samenvattingen en concrete next-steps. Noem nooit of geef nooit API-sleutels, wachtwoorden of persoonlijke data. Als de gebruiker iets vraagt buiten je capabilities, geef een heldere reden en een alternatief. Gebruik een levendige, speelse toon maar geen ongepaste taal."

/-- `Math.ceil(RATE_LIMIT_WINDOW_MS / 1000)`, the `Retry-After` header value. -/
def retryAfterSeconds : Nat := (RATE_LIMIT_WINDOW_MS.toNat + 999) / 1000

/-! ## Requests and configuration -/

/-- The parts of the inbound request the handler reads: `req.headers.origin`,
`req.headers.referer`, `req.headers["x-forwarded-for"]` and
`req.socket.remoteAddress`.  `none` models an absent header/field. -/
structure Request where
  origin : Option String
  referer : Option String
  forwardedFor : Option String
  remoteAddress : Option String
deriving Repr, DecidableEq

/-- The environment variables the module reads: `OPENAI_API_KEY`,
`ALLOWED_ORIGINS` and `SESSION_INSTRUCTIONS`. -/
structure Config where
  apiKey : Option String
  allowedOriginsEnv : Option String
  sessionInstructionsEnv : Option String
deriving Repr, DecidableEq

/-- JavaScript truthiness of a possibly-absent string: `undefined` and the
empty string are falsy. -/
def truthyS : Option String → Bool
  | none => false
  | some s => !(s = "")

/-- JavaScript `a || b` on a possibly-absent string with a string default. -/
def orString (a : Option String) (b : String) : String :=
  match a with
  | some s => if s = "" then b else s
  | none => b

/-- Line 24: `(req.headers.origin || req.headers.referer || "").toString()`. -/
def rawOrigin (req : Request) : String :=
  orString req.origin (orString req.referer "")

/-- ASCII whitespace test used by `trimStr` (JavaScript `trim`). -/
def isSpaceChar (c : Char) : Bool :=
  c = ' ' || c = '\t' || c = '\n' || c = '\r'

/-- `s.trim()`: remove leading and trailing whitespace. -/
def trimStr (s : String) : String :=
  ⟨((s.data.dropWhile isSpaceChar).reverse.dropWhile isSpaceChar).reverse⟩

/-- `s.split(",")` on character lists. -/
def splitOnComma : List Char → List (List Char)
  | [] => [[]]
  | c :: rest =>
    let r := splitOnComma rest
    if c = ',' then [] :: r
    else
      match r with
      | h :: t => (c :: h) :: t
      | [] => [[c]]

/-- Lines 15-17: `ALLOWED_ORIGINS` split on commas, trimmed and with empty
pieces dropped, defaulting to `DEFAULT_ALLOWED` when the variable is unset
or empty. -/
def allowedOrigins (env : Option String) : List String :=
  if truthyS env then
    (((splitOnComma (env.getD "").data).map (fun cs => trimStr ⟨cs⟩)).filter (fun s => !(s = "")))
  else DEFAULT_ALLOWED

/-- Lines 164-166: `process.env.SESSION_INSTRUCTIONS || "<built-in default>"`. -/
def instructionsOf (cfg : Config) : String :=
  if truthyS cfg.sessionInstructionsEnv then cfg.sessionInstructionsEnv.getD ""
  else DEFAULT_INSTRUCTIONS

/-! ## String helpers for the origin guard

All character-level operations are implemented structurally over `s.data`
so that concrete instances evaluate inside the kernel.  ASCII suffices for
the strings this handler manipulates. -/

/-- ASCII lower-casing of one character (JavaScript `toLowerCase`). -/
def lowerChar (c : Char) : Char :=
  if 'A' ≤ c ∧ c ≤ 'Z' then Char.ofNat (c.toNat + 32) else c

/-- `s.toLowerCase()`. -/
def lowerStr (s : String) : String :=
  ⟨s.data.map lowerChar⟩

/-- `p` is a prefix of `s` (JavaScript `s.startsWith(p)`). -/
def strStartsWith (s p : String) : Bool :=
  p.data.isPrefixOf s.data

/-- `s.replace(/\/$/, '')`: remove one trailing slash. -/
def stripTrailingSlash (s : String) : String :=
  match s.data.getLast? with
  | some c => if c = '/' then ⟨s.data.dropLast⟩ else s
  | none => s

/-- Line 37/38 normalization: strip a trailing slash, then lower-case. -/
def normalizeOrigin (s : String) : String :=
  lowerStr (stripTrailingSlash s)

/-- `a.replace(/^https?:\/\//, '')`: strip a leading http/https scheme. -/
def stripScheme (s : String) : String :=
  if strStartsWith s "https://" then ⟨s.data.drop 8⟩
  else if strStartsWith s "http://" then ⟨s.data.drop 7⟩
  else s

/-- Boolean substring test on character lists (`String.includes`). -/
def containsSubChars (needle : List Char) : List Char → Bool
  | [] => needle.isEmpty
  | c :: rest => needle.isPrefixOf (c :: rest) || containsSubChars needle rest

/-- `hay.includes(needle)` for strings. -/
def containsSubstr (hay needle : String) : Bool :=
  containsSubChars needle.data hay.data

/-- Split a character list at the first occurrence of `sep`, returning the
parts before and after it; `none` when `sep` does not occur. -/
def splitAtSubstr (sep : List Char) : List Char → Option (List Char × List Char)
  | [] => if sep.isEmpty then some ([], []) else none
  | c :: rest =>
    if sep.isPrefixOf (c :: rest) then some ([], (c :: rest).drop sep.length)
    else
      match splitAtSubstr sep rest with
      | some (pre, post) => some (c :: pre, post)
      | none => none

/-- Models `new URL(s).origin` for an http(s)-style URL: the part before the
first `://` (lower-cased) as the scheme and the host segment after it
(up to a `/`, `?` or `#`, lower-cased); `none` models a parse failure. -/
def urlOrigin (s : String) : Option String :=
  match splitAtSubstr "://".data s.data with
  | some (scheme, rest) =>
    let host := rest.takeWhile (fun c => !(c = '/') && !(c = '?') && !(c = '#'))
    if scheme.isEmpty || host.isEmpty then none
    else some ⟨scheme.map lowerChar ++ "://".data ++ host.map lowerChar⟩
  | none => none

/-- Lines 26-35: when the candidate contains `://`, reduce it to its URL
origin, keeping the raw string when URL parsing fails. -/
def extractOrigin (s : String) : String :=
  if !(s = "") && containsSubstr s "://" then (urlOrigin s).getD s
  else s

/-- Lines 40-49: the per-entry admission test run by `normalizedAllowed.some`.
`a` is an already-normalized allow-list entry. -/
def matchEntry (normalizedOrigin a : String) : Bool :=
  if a = "" then false
  else if normalizedOrigin = a then true
  else if strStartsWith normalizedOrigin a then true
  else containsSubstr normalizedOrigin (stripScheme a)

/-! ## Response and result types -/

/-- A minimal JSON value model for the bodies flowing through the handler;
`raw` stands for any JSON value the handler never inspects. -/
inductive JVal where
  | str (s : String)
  | num (n : Int)
  | jbool (b : Bool)
  | jnull
  | raw (s : String)
deriving Repr, DecidableEq

/-- The response bodies the handler can produce. -/
inductive Body where
  | errObj (error : String)
  | originErr (error : String) (origin : String) (allowed : List String)
  | detailErr (error : String) (detail : String)
  | sessionObj (fields : List (String × JVal))
deriving Repr, DecidableEq

structure HttpResponse where
  status : Nat
  retryAfter : Option Nat
  body : Body
deriving Repr, DecidableEq

/-- JSON object field lookup. -/
def getField (o : List (String × JVal)) (k : String) : Option JVal :=
  match o with
  | [] => none
  | (k', v) :: rest => if k' = k then some v else getField rest k

/-- JavaScript property assignment `data[k] = v` on an object: overwrite the
existing field in place, else append the field at the end. -/
def setField (o : List (String × JVal)) (k : String) (v : JVal) : List (String × JVal) :=
  match o with
  | [] => [(k, v)]
  | (k', v') :: rest => if k' = k then (k, v) :: rest else (k', v') :: setField rest k v

/-! ## The rate-limit ledger -/

/-- The module-level `rateLimitMap`: client key to timestamp list. -/
abbrev RateMap := List (String × List Int)

/-- `rateLimitMap.get(k)`. -/
def mapGet : RateMap → String → Option (List Int)
  | [], _ => none
  | (k', v) :: rest, k => if k' = k then some v else mapGet rest k

/-- `rateLimitMap.set(k, v)`: overwrite in place or append. -/
def mapSet : RateMap → String → List Int → RateMap
  | [], k, v => [(k, v)]
  | (k', v') :: rest, k, v => if k' = k then (k, v) :: rest else (k', v') :: mapSet rest k v

inductive RateDecision where
  | admitted (newMap : RateMap)
  | rejected
deriving Repr, DecidableEq

/-- Lines 59-67: prune the key's timestamps to the current window, reject
when the cap is reached (without writing anything back), otherwise append
`now` and write the pruned list back. -/
def rateLimitStep (m : RateMap) (ip : String) (now : Int) : RateDecision :=
  let windowStart := now - RATE_LIMIT_WINDOW_MS
  let timestamps := ((mapGet m ip).getD []).filter (fun t => decide (windowStart ≤ t))
  if RATE_LIMIT_MAX ≤ timestamps.length then .rejected
  else .admitted (mapSet m ip (timestamps ++ [now]))

/-- Line 58: `(req.headers["x-forwarded-for"] || req.socket.remoteAddress ||
origin || "unknown").toString()`.  The identifier `origin` is not defined
anywhere in the module, so when both preceding operands are falsy the
expression throws a `ReferenceError` (outside the try block). -/
def clientKey (req : Request) : Except String String :=
  if truthyS req.forwardedFor then .ok (req.forwardedFor.getD "")
  else if truthyS req.remoteAddress then .ok (req.remoteAddress.getD "")
  else .error "ReferenceError: origin is not defined"

/-! ## The upstream forwarder -/

/-- The observable outcome of one `fetchWithTimeout` attempt: either an HTTP
response (status, `resp.text()` and the parsed `resp.json()` object), or a
thrown transport error / timeout abort, stringified. -/
inductive UpstreamResult where
  | response (status : Nat) (text : String) (json : List (String × JVal))
  | transportError (err : String)
deriving Repr, DecidableEq

inductive LoopResult where
  | success (json : List (String × JVal))
  | gatewayError (detail : String)
deriving Repr, DecidableEq

/-- Lines 95-161: the retry loop `for (attempt = 0; attempt <= MAX_SESSION_RETRIES; ...)`.
The list holds the upstream outcome of each remaining attempt; the handler
passes one outcome per possible iteration.  Returns the loop result, the
number of attempts made and the list of backoff delays awaited (a delay of
`500 * 2 ^ attempt` ms is slept before each retry).  A 2xx response
(`resp.ok`) succeeds at once; a 5xx response retries while
`attempt < MAX_SESSION_RETRIES`, as does a thrown transport error or
timeout abort; any other response fails immediately with the response text
as detail. -/
def sessionLoop (attempt : Nat) : List UpstreamResult → LoopResult × Nat × List Nat
  | [] => (.gatewayError "", 0, [])
  | o :: rest =>
    match o with
    | .response status text json =>
      if 200 ≤ status ∧ status < 300 then (.success json, 1, [])
      else if 500 ≤ status ∧ attempt < MAX_SESSION_RETRIES then
        let r := sessionLoop (attempt + 1) rest
        (r.1, r.2.1 + 1, 500 * 2 ^ attempt :: r.2.2)
      else (.gatewayError text, 1, [])
    | .transportError err =>
      if attempt < MAX_SESSION_RETRIES then
        let r := sessionLoop (attempt + 1) rest
        (r.1, r.2.1 + 1, 500 * 2 ^ attempt :: r.2.2)
      else (.gatewayError err, 1, [])

/-! ## The handler -/

/-- Lines 25-55: the origin guard.  Returns `some` rejection response when
the request is turned away, `none` when processing continues. -/
def originGuard (origins : List String) (raw : String) : Option HttpResponse :=
  if 0 < origins.length ∧ raw ≠ "" then
    let originToCheck := extractOrigin raw
    let normalizedAllowed := origins.map normalizeOrigin
    let normalizedOrigin := normalizeOrigin originToCheck
    if normalizedAllowed.any (matchEntry normalizedOrigin) then none
    else some ⟨403, none, .originErr "Origin not allowed" originToCheck normalizedAllowed⟩
  else none

structure HandlerResult where
  response : HttpResponse
  rateMap : RateMap
  upstreamCalls : Nat
  backoffs : List Nat
deriving Repr, DecidableEq

/-- The whole handler, in source order: origin guard (lines 25-55), client
key (line 58), rate limiter (lines 59-67), credential check (lines 71-74),
upstream retry loop and response post-processing (lines 76-172).  The
`Except` error is the uncaught `ReferenceError` from `clientKey`. -/
def handler (cfg : Config) (req : Request) (m : RateMap) (now : Int)
    (outs : Nat → UpstreamResult) : Except String HandlerResult :=
  let origins := allowedOrigins cfg.allowedOriginsEnv
  match originGuard origins (rawOrigin req) with
  | some resp => .ok ⟨resp, m, 0, []⟩
  | none =>
    match clientKey req with
    | .error e => .error e
    | .ok ip =>
      match rateLimitStep m ip now with
      | .rejected => .ok ⟨⟨429, some retryAfterSeconds, .errObj "Too many requests"⟩, m, 0, []⟩
      | .admitted m' =>
        if truthyS cfg.apiKey then
          match sessionLoop 0 [outs 0, outs 1, outs 2] with
          | (.success json, n, b) =>
            .ok ⟨⟨200, none, .sessionObj (setField json "instructions" (.str (instructionsOf cfg)))⟩,
                 m', n, b⟩
          | (.gatewayError detail, n, b) =>
            .ok ⟨⟨502, none, .detailErr "OpenAI realtime session creation failed" detail⟩, m', n, b⟩
        else
          .ok ⟨⟨500, none, .errObj "OPENAI_API_KEY niet ingesteld in Vercel"⟩, m', 0, []⟩

/-- Test driver: run the handler on a sequence of clock values, threading the
rate-limit ledger between invocations, collecting the responses.  Stops if
an invocation throws. -/
def runHandlerSeq (cfg : Config) (req : Request) (outs : Nat → UpstreamResult) :
    RateMap → List Int → List HttpResponse × RateMap
  | m, [] => ([], m)
  | m, now :: rest =>
    match handler cfg req m now outs with
    | .ok r =>
      let next := runHandlerSeq cfg req outs r.rateMap rest
      (r.response :: next.1, next.2)
    | .error _ => ([], m)

/-! ## Spec-side definitions (for refinement comparisons) -/

/-- Modelled from the spec, section 4.2: "Client key = first present of:
forwarded-for header value, raw socket address, the origin string, or the
literal fallback unknown."  The code instead evaluates the undefined
identifier `origin` in the third position (see `clientKey`). -/
def clientKeySpec (req : Request) : String :=
  if truthyS req.forwardedFor then req.forwardedFor.getD ""
  else if truthyS req.remoteAddress then req.remoteAddress.getD ""
  else if !(rawOrigin req = "") then rawOrigin req
  else "unknown"

/-- The origin-admission rule exactly as claim C6 words it: after
normalizing candidate and entries, admit iff the candidate equals some
entry, or starts with some entry, or contains some entry's hostname. -/
def originAllowedClaim (allowList : List String) (candidate : String) : Bool :=
  let nAll := allowList.map normalizeOrigin
  let nOr := normalizeOrigin candidate
  nAll.any (fun a => nOr = a || strStartsWith nOr a || containsSubstr nOr (stripScheme a))

/-! ## Basic lemmas about the ledger map -/

theorem mapGet_mapSet_self (m : RateMap) (k : String) (v : List Int) :
    mapGet (mapSet m k v) k = some v := by
  induction m with
  | nil => simp [mapSet, mapGet]
  | cons p rest ih =>
    obtain ⟨k', v'⟩ := p
    by_cases h : k' = k
    · simp [mapSet, mapGet, h]
    · simp [mapSet, mapGet, h, ih]

theorem mapGet_mapSet_ne (m : RateMap) (k k' : String) (v : List Int) (h : ¬(k' = k)) :
    mapGet (mapSet m k v) k' = mapGet m k' := by
  have h' : ¬(k = k') := fun hh => h hh.symm
  induction m with
  | nil => simp [mapSet, mapGet, h']
  | cons p rest ih =>
    obtain ⟨k0, v0⟩ := p
    by_cases h0 : k0 = k
    · subst h0
      simp [mapSet, mapGet, h']
    · simp [mapSet, mapGet, h0, ih]

/-! ## Lemmas about the rate-limit step -/

theorem rateLimitStep_run (m : RateMap) (ip : String) (now : Int) (l : List Int)
    (hf : (((mapGet m ip).getD []).filter (fun t => decide (now - RATE_LIMIT_WINDOW_MS ≤ t))) = l)
    (hlen : l.length < RATE_LIMIT_MAX) :
    rateLimitStep m ip now = .admitted (mapSet m ip (l ++ [now])) := by
  simp only [rateLimitStep, hf]
  rw [if_neg (Nat.not_le.mpr hlen)]

theorem rateLimitStep_stop (m : RateMap) (ip : String) (now : Int) (l : List Int)
    (hf : (((mapGet m ip).getD []).filter (fun t => decide (now - RATE_LIMIT_WINDOW_MS ≤ t))) = l)
    (hlen : RATE_LIMIT_MAX ≤ l.length) :
    rateLimitStep m ip now = .rejected := by
  simp only [rateLimitStep, hf]
  rw [if_pos hlen]

theorem rateLimitStep_admitted_inv (m : RateMap) (ip : String) (now : Int) (m' : RateMap)
    (h : rateLimitStep m ip now = .admitted m') :
    ∃ l, (((mapGet m ip).getD []).filter (fun t => decide (now - RATE_LIMIT_WINDOW_MS ≤ t))) = l ∧
      l.length < RATE_LIMIT_MAX ∧ m' = mapSet m ip (l ++ [now]) := by
  by_cases hc : RATE_LIMIT_MAX ≤
      ((((mapGet m ip).getD []).filter (fun t => decide (now - RATE_LIMIT_WINDOW_MS ≤ t)))).length
  · rw [rateLimitStep_stop m ip now _ rfl hc] at h
    exact absurd h (by simp)
  · refine ⟨_, rfl, Nat.lt_of_not_le hc, ?_⟩
    rw [rateLimitStep_run m ip now _ rfl (Nat.lt_of_not_le hc)] at h
    exact (RateDecision.admitted.injEq _ _ ▸ h).symm

/-! ## Lemmas about the retry loop -/

theorem sessionLoop_ok (attempt status : Nat) (text : String) (json : List (String × JVal))
    (rest : List UpstreamResult) (hok : 200 ≤ status ∧ status < 300) :
    sessionLoop attempt (.response status text json :: rest) = (.success json, 1, []) := by
  simp [sessionLoop, hok]

theorem sessionLoop_5xx (attempt status : Nat) (text : String) (json : List (String × JVal))
    (rest : List UpstreamResult) (hnok : ¬(200 ≤ status ∧ status < 300))
    (h5 : 500 ≤ status) (hatt : attempt < MAX_SESSION_RETRIES) :
    sessionLoop attempt (.response status text json :: rest) =
      ((sessionLoop (attempt + 1) rest).1, (sessionLoop (attempt + 1) rest).2.1 + 1,
       500 * 2 ^ attempt :: (sessionLoop (attempt + 1) rest).2.2) := by
  simp [sessionLoop, hnok, h5, hatt]

theorem sessionLoop_noretry (attempt status : Nat) (text : String) (json : List (String × JVal))
    (rest : List UpstreamResult) (hnok : ¬(200 ≤ status ∧ status < 300))
    (hnr : ¬(500 ≤ status ∧ attempt < MAX_SESSION_RETRIES)) :
    sessionLoop attempt (.response status text json :: rest) = (.gatewayError text, 1, []) := by
  simp only [sessionLoop]
  rw [if_neg hnok, if_neg hnr]

theorem sessionLoop_transport_retry (attempt : Nat) (err : String)
    (rest : List UpstreamResult) (hatt : attempt < MAX_SESSION_RETRIES) :
    sessionLoop attempt (.transportError err :: rest) =
      ((sessionLoop (attempt + 1) rest).1, (sessionLoop (attempt + 1) rest).2.1 + 1,
       500 * 2 ^ attempt :: (sessionLoop (attempt + 1) rest).2.2) := by
  simp [sessionLoop, hatt]

theorem sessionLoop_transport_last (attempt : Nat) (err : String)
    (rest : List UpstreamResult) (hatt : ¬(attempt < MAX_SESSION_RETRIES)) :
    sessionLoop attempt (.transportError err :: rest) = (.gatewayError err, 1, []) := by
  simp [sessionLoop, hatt]

/-! ## Handler unfolding lemmas -/

theorem handler_guard_some (cfg : Config) (req : Request) (m : RateMap) (now : Int)
    (outs : Nat → UpstreamResult) (resp : HttpResponse)
    (hg : originGuard (allowedOrigins cfg.allowedOriginsEnv) (rawOrigin req) = some resp) :
    handler cfg req m now outs = .ok ⟨resp, m, 0, []⟩ := by
  simp [handler, hg]

theorem handler_key_error (cfg : Config) (req : Request) (m : RateMap) (now : Int)
    (outs : Nat → UpstreamResult) (e : String)
    (hg : originGuard (allowedOrigins cfg.allowedOriginsEnv) (rawOrigin req) = none)
    (hk : clientKey req = .error e) :
    handler cfg req m now outs = .error e := by
  simp [handler, hg, hk]

theorem handler_rate_rejected (cfg : Config) (req : Request) (m : RateMap) (now : Int)
    (outs : Nat → UpstreamResult) (ip : String)
    (hg : originGuard (allowedOrigins cfg.allowedOriginsEnv) (rawOrigin req) = none)
    (hk : clientKey req = .ok ip)
    (hr : rateLimitStep m ip now = .rejected) :
    handler cfg req m now outs =
      .ok ⟨⟨429, some retryAfterSeconds, .errObj "Too many requests"⟩, m, 0, []⟩ := by
  simp [handler, hg, hk, hr]

theorem handler_no_key (cfg : Config) (req : Request) (m : RateMap) (now : Int)
    (outs : Nat → UpstreamResult) (ip : String) (m' : RateMap)
    (hg : originGuard (allowedOrigins cfg.allowedOriginsEnv) (rawOrigin req) = none)
    (hk : clientKey req = .ok ip)
    (hr : rateLimitStep m ip now = .admitted m')
    (ha : truthyS cfg.apiKey = false) :
    handler cfg req m now outs =
      .ok ⟨⟨500, none, .errObj "OPENAI_API_KEY niet ingesteld in Vercel"⟩, m', 0, []⟩ := by
  simp [handler, hg, hk, hr, ha]

theorem handler_success (cfg : Config) (req : Request) (m : RateMap) (now : Int)
    (outs : Nat → UpstreamResult) (ip : String) (m' : RateMap)
    (json : List (String × JVal)) (n : Nat) (b : List Nat)
    (hg : originGuard (allowedOrigins cfg.allowedOriginsEnv) (rawOrigin req) = none)
    (hk : clientKey req = .ok ip)
    (hr : rateLimitStep m ip now = .admitted m')
    (ha : truthyS cfg.apiKey = true)
    (hs : sessionLoop 0 [outs 0, outs 1, outs 2] = (.success json, n, b)) :
    handler cfg req m now outs =
      .ok ⟨⟨200, none, .sessionObj (setField json "instructions" (.str (instructionsOf cfg)))⟩,
           m', n, b⟩ := by
  simp [handler, hg, hk, hr, ha, hs]

theorem handler_gateway (cfg : Config) (req : Request) (m : RateMap) (now : Int)
    (outs : Nat → UpstreamResult) (ip : String) (m' : RateMap)
    (detail : String) (n : Nat) (b : List Nat)
    (hg : originGuard (allowedOrigins cfg.allowedOriginsEnv) (rawOrigin req) = none)
    (hk : clientKey req = .ok ip)
    (hr : rateLimitStep m ip now = .admitted m')
    (ha : truthyS cfg.apiKey = true)
    (hs : sessionLoop 0 [outs 0, outs 1, outs 2] = (.gatewayError detail, n, b)) :
    handler cfg req m now outs =
      .ok ⟨⟨502, none, .detailErr "OpenAI realtime session creation failed" detail⟩, m', n, b⟩ := by
  simp [handler, hg, hk, hr, ha, hs]

theorem originGuard_some_inv (origins : List String) (raw : String) (resp : HttpResponse)
    (h : originGuard origins raw = some resp) :
    resp = ⟨403, none,
      .originErr "Origin not allowed" (extractOrigin raw) (origins.map normalizeOrigin)⟩ := by
  simp only [originGuard] at h
  split_ifs at h with hc hm
  all_goals simp_all

theorem mapSet_mapSet (m : RateMap) (k : String) (v v' : List Int) :
    mapSet (mapSet m k v) k v' = mapSet m k v' := by
  induction m with
  | nil => simp [mapSet]
  | cons p rest ih =>
    obtain ⟨k0, v0⟩ := p
    by_cases h : k0 = k
    · simp [mapSet, h]
    · simp [mapSet, h, ih]

/-! ## Claim C1 -/

/-- Claim C1 counterexample: with the upstream credential absent from the
configuration, a request from a disallowed origin is still answered 403 by
the origin guard (so the 500 short-circuit did not come first), and a
request that passes the guard has its timestamp appended to the rate-limit
ledger before the credential check answers 500: the ledger changes on this
path, contradicting the claim that no ledger entry changes and that the
500 precedes the origin check. -/
theorem handler_403_and_ledger_write_despite_missing_key :
    handler ⟨none, some "http://a.com", none⟩
        ⟨some "http://evil.net", none, some "1.2.3.4", none⟩ [] 0
        (fun _ => .transportError "unreachable") =
      .ok ⟨⟨403, none, .originErr "Origin not allowed" "http://evil.net" ["http://a.com"]⟩,
           [], 0, []⟩ ∧
    handler ⟨none, none, none⟩ ⟨none, none, some "1.2.3.4", none⟩ [] 0
        (fun _ => .transportError "unreachable") =
      .ok ⟨⟨500, none, .errObj "OPENAI_API_KEY niet ingesteld in Vercel"⟩,
           [("1.2.3.4", [0])], 0, []⟩ ∧
    ¬([("1.2.3.4", [(0 : Int)])] : RateMap) = [] :=
  ⟨rfl, rfl, by simp⟩

/-- Claim C1 (amended): when the upstream credential is absent the handler
makes no outbound call and sleeps no backoff, answering 403, 429 or 500;
but the origin check and the rate-limit append run before the credential
check, so whenever the 500 is reached the ledger has already been written
with the pruned in-window list plus the current timestamp. -/
theorem missing_credential_no_upstream (cfg : Config) (req : Request) (m : RateMap)
    (now : Int) (outs : Nat → UpstreamResult) (r : HandlerResult)
    (hkey : truthyS cfg.apiKey = false)
    (h : handler cfg req m now outs = .ok r) :
    r.upstreamCalls = 0 ∧ r.backoffs = [] ∧
    (r.response.status = 403 ∨ r.response.status = 429 ∨ r.response.status = 500) ∧
    (r.response.status = 500 →
      ∃ ip l, clientKey req = .ok ip ∧
        (((mapGet m ip).getD []).filter (fun t => decide (now - RATE_LIMIT_WINDOW_MS ≤ t))) = l ∧
        l.length < RATE_LIMIT_MAX ∧ r.rateMap = mapSet m ip (l ++ [now])) := by
  cases hg : originGuard (allowedOrigins cfg.allowedOriginsEnv) (rawOrigin req) with
  | some resp =>
    rw [handler_guard_some cfg req m now outs resp hg] at h
    obtain rfl : (⟨resp, m, 0, []⟩ : HandlerResult) = r := by injection h
    have hresp := originGuard_some_inv _ _ _ hg
    subst hresp
    refine ⟨rfl, rfl, Or.inl rfl, ?_⟩
    intro h500
    simp at h500
  | none =>
    cases hkc : clientKey req with
    | error e =>
      rw [handler_key_error cfg req m now outs e hg hkc] at h
      simp at h
    | ok ip =>
      cases hr : rateLimitStep m ip now with
      | rejected =>
        rw [handler_rate_rejected cfg req m now outs ip hg hkc hr] at h
        obtain rfl : (⟨⟨429, some retryAfterSeconds, .errObj "Too many requests"⟩, m, 0, []⟩ :
            HandlerResult) = r := by injection h
        refine ⟨rfl, rfl, Or.inr (Or.inl rfl), ?_⟩
        intro h500
        simp at h500
      | admitted m' =>
        rw [handler_no_key cfg req m now outs ip m' hg hkc hr hkey] at h
        obtain rfl : (⟨⟨500, none, .errObj "OPENAI_API_KEY niet ingesteld in Vercel"⟩, m', 0, []⟩ :
            HandlerResult) = r := by injection h
        obtain ⟨l, hf, hlen, hmm⟩ := rateLimitStep_admitted_inv m ip now m' hr
        exact ⟨rfl, rfl, Or.inr (Or.inr rfl), fun _ => ⟨ip, l, rfl, hf, hlen, hmm⟩⟩

theorem missing_credential_no_upstream_witness :
    HandlerResult.upstreamCalls
      ⟨⟨500, none, .errObj "OPENAI_API_KEY niet ingesteld in Vercel"⟩, [("1.2.3.4", [0])], 0, []⟩ = 0 ∧
    HandlerResult.backoffs
      ⟨⟨500, none, .errObj "OPENAI_API_KEY niet ingesteld in Vercel"⟩, [("1.2.3.4", [0])], 0, []⟩ = [] := by
  have h := missing_credential_no_upstream ⟨none, none, none⟩ ⟨none, none, some "1.2.3.4", none⟩
    [] 0 (fun _ => .transportError "unreachable")
    ⟨⟨500, none, .errObj "OPENAI_API_KEY niet ingesteld in Vercel"⟩, [("1.2.3.4", [0])], 0, []⟩
    rfl rfl
  exact ⟨h.1, h.2.1⟩

/-! ## Claim C2 -/

/-- Claim C2: the rate-limit key line evaluates the undefined module-level
identifier `origin` when both the forwarded-for header and the socket
address are absent, so the handler throws a ReferenceError there instead of
falling back to the origin string or the literal "unknown" as the spec
describes; `clientKeySpec` is the intended chain, shown diverging from the
code on the same inputs. -/
theorem clientKey_reference_error :
    clientKey ⟨none, none, none, none⟩ = .error "ReferenceError: origin is not defined" ∧
    clientKeySpec ⟨none, none, none, none⟩ = "unknown" ∧
    clientKeySpec ⟨some "http://a.com", none, none, none⟩ = "http://a.com" ∧
    handler ⟨some "k", some "http://a.com", none⟩ ⟨some "http://a.com", none, none, none⟩ [] 0
      (fun _ => .response 200 "" []) = .error "ReferenceError: origin is not defined" :=
  ⟨rfl, rfl, rfl, rfl⟩

/-! ## Claim C6 -/

theorem matchEntry_iff (nOr a : String) :
    matchEntry nOr a = true ↔
      ¬(a = "") ∧ (nOr = a ∨ strStartsWith nOr a = true ∨
        containsSubstr nOr (stripScheme a) = true) := by
  unfold matchEntry
  split_ifs with h1 h2 h3 <;> simp_all

/-- Claim C6 counterexample: the allow-list entry "/" survives the env
parsing (it is nonempty before normalization) but normalizes to the empty
string; per the claim every candidate starts with the empty prefix, so the
claim admits the request, yet the code's guard skips empty normalized
entries and rejects it with 403. -/
theorem origin_claim_empty_entry_counterexample :
    originAllowedClaim ["/"] "http://x" = true ∧
    allowedOrigins (some "/") = ["/"] ∧
    handler ⟨some "k", some "/", some "i"⟩ ⟨some "http://x", none, some "a", none⟩ [] 0
        (fun _ => .response 200 "" []) =
      .ok ⟨⟨403, none, .originErr "Origin not allowed" "http://x" [""]⟩, [], 0, []⟩ :=
  ⟨rfl, rfl, rfl⟩

/-- Claim C6 (amended): when the guard runs (nonempty allow-list, nonempty
origin/referer string), the request passes the guard iff some allow-list
entry whose normalized form is nonempty matches the normalized candidate by
equality, string prefix, or scheme-stripped-substring; entries normalizing
to the empty string never match.  When no entry matches, the handler
answers 403 with a body carrying the candidate and the normalized
allow-list. -/
theorem origin_guard_admission_iff (cfg : Config) (req : Request) (m : RateMap) (now : Int)
    (outs : Nat → UpstreamResult)
    (h1 : ¬(allowedOrigins cfg.allowedOriginsEnv = []))
    (h2 : ¬(rawOrigin req = "")) :
    (originGuard (allowedOrigins cfg.allowedOriginsEnv) (rawOrigin req) = none ↔
      ∃ a ∈ (allowedOrigins cfg.allowedOriginsEnv).map normalizeOrigin,
        ¬(a = "") ∧
          (normalizeOrigin (extractOrigin (rawOrigin req)) = a ∨
           strStartsWith (normalizeOrigin (extractOrigin (rawOrigin req))) a = true ∨
           containsSubstr (normalizeOrigin (extractOrigin (rawOrigin req))) (stripScheme a) = true)) ∧
    (¬(originGuard (allowedOrigins cfg.allowedOriginsEnv) (rawOrigin req) = none) →
      handler cfg req m now outs =
        .ok ⟨⟨403, none, .originErr "Origin not allowed" (extractOrigin (rawOrigin req))
                ((allowedOrigins cfg.allowedOriginsEnv).map normalizeOrigin)⟩, m, 0, []⟩) := by
  have hc : 0 < (allowedOrigins cfg.allowedOriginsEnv).length ∧ ¬(rawOrigin req = "") :=
    ⟨List.length_pos.mpr h1, h2⟩
  constructor
  · constructor
    · intro hnone
      simp only [originGuard, if_pos hc] at hnone
      split_ifs at hnone with hm
      · obtain ⟨a, ha, hmt⟩ := List.any_eq_true.mp hm
        exact ⟨a, ha, (matchEntry_iff _ a).mp hmt⟩
    · intro ⟨a, ha, hne, hcase⟩
      have hm : ((allowedOrigins cfg.allowedOriginsEnv).map normalizeOrigin).any
          (matchEntry (normalizeOrigin (extractOrigin (rawOrigin req)))) = true :=
        List.any_eq_true.mpr ⟨a, ha, (matchEntry_iff _ a).mpr ⟨hne, hcase⟩⟩
      simp [originGuard, if_pos hc, hm]
  · intro hsome
    have hg : originGuard (allowedOrigins cfg.allowedOriginsEnv) (rawOrigin req) =
        some ⟨403, none, .originErr "Origin not allowed" (extractOrigin (rawOrigin req))
          ((allowedOrigins cfg.allowedOriginsEnv).map normalizeOrigin)⟩ := by
      cases hgc : originGuard (allowedOrigins cfg.allowedOriginsEnv) (rawOrigin req) with
      | none => exact absurd hgc hsome
      | some resp => rw [originGuard_some_inv _ _ _ hgc]
    exact handler_guard_some cfg req m now outs _ hg

theorem origin_guard_admission_iff_witness :
    (originGuard (allowedOrigins (some "http://a.com")) (rawOrigin ⟨some "http://a.com", none, none, none⟩) = none ↔
      ∃ a ∈ (allowedOrigins (some "http://a.com")).map normalizeOrigin,
        ¬(a = "") ∧
          (normalizeOrigin (extractOrigin (rawOrigin ⟨some "http://a.com", none, none, none⟩)) = a ∨
           strStartsWith (normalizeOrigin (extractOrigin (rawOrigin ⟨some "http://a.com", none, none, none⟩))) a = true ∨
           containsSubstr (normalizeOrigin (extractOrigin (rawOrigin ⟨some "http://a.com", none, none, none⟩))) (stripScheme a) = true)) :=
  (origin_guard_admission_iff ⟨some "k", some "http://a.com", none⟩
    ⟨some "http://a.com", none, none, none⟩ [] 0 (fun _ => .transportError "x")
    (by decide) (by decide)).1

/-! ## Claim C5 -/

/-- Claim C5: a non-OK upstream status below 500 (a 4xx) is not retried:
the loop stops after exactly one attempt with no backoff, and the handler
relays HTTP 502 with the upstream response body as the detail field. -/
theorem upstream_4xx_immediate_502 (cfg : Config) (req : Request) (m m' : RateMap)
    (now : Int) (outs : Nat → UpstreamResult) (ip : String)
    (status : Nat) (text : String) (json : List (String × JVal))
    (hg : originGuard (allowedOrigins cfg.allowedOriginsEnv) (rawOrigin req) = none)
    (hk : clientKey req = .ok ip)
    (hr : rateLimitStep m ip now = .admitted m')
    (ha : truthyS cfg.apiKey = true)
    (ho : outs 0 = .response status text json)
    (h4 : 400 ≤ status) (h5 : status < 500) :
    sessionLoop 0 [outs 0, outs 1, outs 2] = (.gatewayError text, 1, []) ∧
    handler cfg req m now outs =
      .ok ⟨⟨502, none, .detailErr "OpenAI realtime session creation failed" text⟩, m', 1, []⟩ := by
  have hs : sessionLoop 0 [outs 0, outs 1, outs 2] = (.gatewayError text, 1, []) := by
    rw [ho]
    exact sessionLoop_noretry 0 status text json _ (fun hc => by omega)
      (fun hc => absurd hc.1 (by omega))
  exact ⟨hs, handler_gateway cfg req m now outs ip m' text 1 [] hg hk hr ha hs⟩

theorem upstream_4xx_immediate_502_witness :
    sessionLoop 0 [UpstreamResult.response 404 "not found" [],
      .transportError "x", .transportError "x"] = (.gatewayError "not found", 1, []) ∧
    handler ⟨some "k", none, some "i"⟩ ⟨none, none, some "1.2.3.4", none⟩ [] 0
        (fun _ => .response 404 "not found" []) =
      .ok ⟨⟨502, none, .detailErr "OpenAI realtime session creation failed" "not found"⟩,
           [("1.2.3.4", [0])], 1, []⟩ :=
  upstream_4xx_immediate_502 ⟨some "k", none, some "i"⟩ ⟨none, none, some "1.2.3.4", none⟩
    [] [("1.2.3.4", [0])] 0 (fun _ => .response 404 "not found" []) "1.2.3.4"
    404 "not found" [] rfl rfl rfl rfl rfl (by omega) (by omega)

/-! ## Claim C7 -/

theorem getField_setField_self (o : List (String × JVal)) (k : String) (v : JVal) :
    getField (setField o k v) k = some v := by
  induction o with
  | nil => simp [setField, getField]
  | cons p rest ih =>
    obtain ⟨k0, v0⟩ := p
    by_cases h : k0 = k
    · simp [setField, getField, h]
    · simp [setField, getField, h, ih]

theorem getField_setField_ne (o : List (String × JVal)) (k k' : String) (v : JVal)
    (h : ¬(k' = k)) : getField (setField o k v) k' = getField o k' := by
  have h' : ¬(k = k') := fun hh => h hh.symm
  induction o with
  | nil => simp [setField, getField, h']
  | cons p rest ih =>
    obtain ⟨k0, v0⟩ := p
    by_cases h0 : k0 = k
    · subst h0
      simp [setField, getField, h']
    · simp [setField, getField, h0, ih]

/-- Claim C7: a successful (2xx) upstream JSON object is relayed as HTTP 200
with the `instructions` string field set to the configured override when
that is truthy, else the built-in default; the injected field reads back as
that string and every other field of the upstream object is unchanged. -/
theorem success_injects_instructions (cfg : Config) (req : Request) (m m' : RateMap)
    (now : Int) (outs : Nat → UpstreamResult) (ip : String)
    (status : Nat) (text : String) (json : List (String × JVal))
    (hg : originGuard (allowedOrigins cfg.allowedOriginsEnv) (rawOrigin req) = none)
    (hk : clientKey req = .ok ip)
    (hr : rateLimitStep m ip now = .admitted m')
    (ha : truthyS cfg.apiKey = true)
    (ho : outs 0 = .response status text json)
    (hok : 200 ≤ status ∧ status < 300) :
    handler cfg req m now outs =
      .ok ⟨⟨200, none, .sessionObj (setField json "instructions" (.str (instructionsOf cfg)))⟩,
           m', 1, []⟩ ∧
    getField (setField json "instructions" (.str (instructionsOf cfg))) "instructions" =
      some (.str (instructionsOf cfg)) ∧
    (∀ k, ¬(k = "instructions") →
      getField (setField json "instructions" (.str (instructionsOf cfg))) k = getField json k) ∧
    (truthyS cfg.sessionInstructionsEnv = true →
      instructionsOf cfg = cfg.sessionInstructionsEnv.getD "") ∧
    (truthyS cfg.sessionInstructionsEnv = false → instructionsOf cfg = DEFAULT_INSTRUCTIONS) := by
  have hs : sessionLoop 0 [outs 0, outs 1, outs 2] = (.success json, 1, []) := by
    rw [ho]
    exact sessionLoop_ok 0 status text json _ hok
  refine ⟨handler_success cfg req m now outs ip m' json 1 [] hg hk hr ha hs,
    getField_setField_self json _ _,
    fun k hk2 => getField_setField_ne json _ k _ hk2, ?_, ?_⟩
  · intro ht; simp [instructionsOf, ht]
  · intro ht; simp [instructionsOf, ht]

theorem success_injects_instructions_witness :
    handler ⟨some "k", none, some "wees beknopt"⟩ ⟨none, none, some "1.2.3.4", none⟩ [] 0
        (fun _ => .response 200 "" [("id", .str "sess_1")]) =
      .ok ⟨⟨200, none, .sessionObj [("id", .str "sess_1"), ("instructions", .str "wees beknopt")]⟩,
           [("1.2.3.4", [0])], 1, []⟩ ∧
    getField [("id", JVal.str "sess_1"), ("instructions", .str "wees beknopt")] "id" =
      some (.str "sess_1") := by
  have h := success_injects_instructions ⟨some "k", none, some "wees beknopt"⟩
    ⟨none, none, some "1.2.3.4", none⟩ [] [("1.2.3.4", [0])] 0
    (fun _ => .response 200 "" [("id", .str "sess_1")]) "1.2.3.4"
    200 "" [("id", .str "sess_1")] rfl rfl rfl rfl rfl (by omega)
  exact ⟨h.1, (h.2.2.1 "id" (by decide)).trans rfl⟩

/-! ## Claim C4 -/

/-- Claim C4: when the first two attempts yield 503 and the third a 200, the
loop succeeds on the third attempt with backoffs of 500 ms before the
second attempt and 1000 ms before the third (1500 ms total), and the
handler relays HTTP 200 recording 3 attempts; the same budget applies when
the first two attempts are timeouts/transport errors, and the per-attempt
timeout constant is 15000 ms. -/
theorem upstream_retry_503_503_200 (cfg : Config) (req : Request) (m m' : RateMap)
    (now : Int) (outs outs2 : Nat → UpstreamResult)
    (ip d0 d1 t2 e0 e1 : String) (j0 j1 j2 : List (String × JVal))
    (hg : originGuard (allowedOrigins cfg.allowedOriginsEnv) (rawOrigin req) = none)
    (hk : clientKey req = .ok ip)
    (hr : rateLimitStep m ip now = .admitted m')
    (ha : truthyS cfg.apiKey = true)
    (ho0 : outs 0 = .response 503 d0 j0) (ho1 : outs 1 = .response 503 d1 j1)
    (ho2 : outs 2 = .response 200 t2 j2)
    (hp0 : outs2 0 = .transportError e0) (hp1 : outs2 1 = .transportError e1)
    (hp2 : outs2 2 = .response 200 t2 j2) :
    sessionLoop 0 [outs 0, outs 1, outs 2] = (.success j2, 3, [500, 1000]) ∧
    handler cfg req m now outs =
      .ok ⟨⟨200, none, .sessionObj (setField j2 "instructions" (.str (instructionsOf cfg)))⟩,
           m', 3, [500, 1000]⟩ ∧
    sessionLoop 0 [outs2 0, outs2 1, outs2 2] = (.success j2, 3, [500, 1000]) ∧
    ([500, 1000] : List Nat).sum = 500 + 1000 ∧
    FETCH_TIMEOUT_MS = 15000 := by
  have A2 : sessionLoop 2 [UpstreamResult.response 200 t2 j2] = (.success j2, 1, []) :=
    sessionLoop_ok 2 200 t2 j2 [] (by omega)
  have A1 : sessionLoop 1 [UpstreamResult.response 503 d1 j1, .response 200 t2 j2] =
      (.success j2, 2, [1000]) := by
    rw [sessionLoop_5xx 1 503 d1 j1 [UpstreamResult.response 200 t2 j2]
      (fun hc => by omega) (by omega) (by decide)]
    rw [show (1 : Nat) + 1 = 2 from rfl, A2]
    norm_num
  have A0 : sessionLoop 0 [UpstreamResult.response 503 d0 j0, .response 503 d1 j1,
      .response 200 t2 j2] = (.success j2, 3, [500, 1000]) := by
    rw [sessionLoop_5xx 0 503 d0 j0 [UpstreamResult.response 503 d1 j1, .response 200 t2 j2]
      (fun hc => by omega) (by omega) (by decide)]
    rw [show (0 : Nat) + 1 = 1 from rfl, A1]
    norm_num
  have B1 : sessionLoop 1 [UpstreamResult.transportError e1, .response 200 t2 j2] =
      (.success j2, 2, [1000]) := by
    rw [sessionLoop_transport_retry 1 e1 [UpstreamResult.response 200 t2 j2] (by decide)]
    rw [show (1 : Nat) + 1 = 2 from rfl, A2]
    norm_num
  have B0 : sessionLoop 0 [UpstreamResult.transportError e0, .transportError e1,
      .response 200 t2 j2] = (.success j2, 3, [500, 1000]) := by
    rw [sessionLoop_transport_retry 0 e0 [UpstreamResult.transportError e1, .response 200 t2 j2]
      (by decide)]
    rw [show (0 : Nat) + 1 = 1 from rfl, B1]
    norm_num
  have hsA : sessionLoop 0 [outs 0, outs 1, outs 2] = (.success j2, 3, [500, 1000]) := by
    rw [ho0, ho1, ho2]; exact A0
  have hsB : sessionLoop 0 [outs2 0, outs2 1, outs2 2] = (.success j2, 3, [500, 1000]) := by
    rw [hp0, hp1, hp2]; exact B0
  exact ⟨hsA, handler_success cfg req m now outs ip m' j2 3 [500, 1000] hg hk hr ha hsA,
    hsB, by norm_num, rfl⟩

theorem upstream_retry_503_503_200_witness :
    sessionLoop 0 [UpstreamResult.response 503 "bad gateway" [],
        .response 503 "bad gateway" [], .response 200 "" [("id", .str "sess_1")]] =
      (.success [("id", .str "sess_1")], 3, [500, 1000]) ∧
    handler ⟨some "k", none, some "i"⟩ ⟨none, none, some "1.2.3.4", none⟩ [] 0
        (fun n => if n < 2 then .response 503 "bad gateway" []
                  else .response 200 "" [("id", .str "sess_1")]) =
      .ok ⟨⟨200, none, .sessionObj [("id", .str "sess_1"), ("instructions", .str "i")]⟩,
           [("1.2.3.4", [0])], 3, [500, 1000]⟩ := by
  have h := upstream_retry_503_503_200 ⟨some "k", none, some "i"⟩
    ⟨none, none, some "1.2.3.4", none⟩ [] [("1.2.3.4", [0])] 0
    (fun n => if n < 2 then .response 503 "bad gateway" []
              else .response 200 "" [("id", .str "sess_1")])
    (fun n => if n < 2 then .transportError "timeout"
              else .response 200 "" [("id", .str "sess_1")])
    "1.2.3.4" "bad gateway" "bad gateway" "" "timeout" "timeout"
    [] [] [("id", .str "sess_1")]
    rfl rfl rfl rfl rfl rfl rfl rfl rfl rfl
  exact ⟨h.1, h.2.1⟩

/-! ## Claim C3 -/

/-- Claim C3: a fresh client key issuing nine chronologically ordered
requests inside one 60000 ms span is admitted on the first eight — each
admission appending its timestamp to the key's ledger entry — and rejected
on the ninth with HTTP 429 and a `Retry-After` header of 60 seconds. -/
theorem rate_limit_eight_admits_then_429 (cfg : Config) (req : Request) (ip : String)
    (m : RateMap) (outs : Nat → UpstreamResult) (json : List (String × JVal)) (n : Nat)
    (b : List Nat) (t0 t1 t2 t3 t4 t5 t6 t7 t8 : Int)
    (hg : originGuard (allowedOrigins cfg.allowedOriginsEnv) (rawOrigin req) = none)
    (hk : clientKey req = .ok ip)
    (ha : truthyS cfg.apiKey = true)
    (hs : sessionLoop 0 [outs 0, outs 1, outs 2] = (.success json, n, b))
    (hm : mapGet m ip = none)
    (h01 : t0 ≤ t1) (h12 : t1 ≤ t2) (h23 : t2 ≤ t3) (h34 : t3 ≤ t4)
    (h45 : t4 ≤ t5) (h56 : t5 ≤ t6) (h67 : t6 ≤ t7) (h78 : t7 ≤ t8)
    (hspan : t8 - t0 ≤ RATE_LIMIT_WINDOW_MS) :
    handler cfg req m t0 outs =
      .ok ⟨⟨200, none, .sessionObj (setField json "instructions" (.str (instructionsOf cfg)))⟩,
           mapSet m ip [t0], n, b⟩ ∧
    handler cfg req (mapSet m ip [t0]) t1 outs =
      .ok ⟨⟨200, none, .sessionObj (setField json "instructions" (.str (instructionsOf cfg)))⟩,
           mapSet m ip [t0, t1], n, b⟩ ∧
    handler cfg req (mapSet m ip [t0, t1]) t2 outs =
      .ok ⟨⟨200, none, .sessionObj (setField json "instructions" (.str (instructionsOf cfg)))⟩,
           mapSet m ip [t0, t1, t2], n, b⟩ ∧
    handler cfg req (mapSet m ip [t0, t1, t2]) t3 outs =
      .ok ⟨⟨200, none, .sessionObj (setField json "instructions" (.str (instructionsOf cfg)))⟩,
           mapSet m ip [t0, t1, t2, t3], n, b⟩ ∧
    handler cfg req (mapSet m ip [t0, t1, t2, t3]) t4 outs =
      .ok ⟨⟨200, none, .sessionObj (setField json "instructions" (.str (instructionsOf cfg)))⟩,
           mapSet m ip [t0, t1, t2, t3, t4], n, b⟩ ∧
    handler cfg req (mapSet m ip [t0, t1, t2, t3, t4]) t5 outs =
      .ok ⟨⟨200, none, .sessionObj (setField json "instructions" (.str (instructionsOf cfg)))⟩,
           mapSet m ip [t0, t1, t2, t3, t4, t5], n, b⟩ ∧
    handler cfg req (mapSet m ip [t0, t1, t2, t3, t4, t5]) t6 outs =
      .ok ⟨⟨200, none, .sessionObj (setField json "instructions" (.str (instructionsOf cfg)))⟩,
           mapSet m ip [t0, t1, t2, t3, t4, t5, t6], n, b⟩ ∧
    handler cfg req (mapSet m ip [t0, t1, t2, t3, t4, t5, t6]) t7 outs =
      .ok ⟨⟨200, none, .sessionObj (setField json "instructions" (.str (instructionsOf cfg)))⟩,
           mapSet m ip [t0, t1, t2, t3, t4, t5, t6, t7], n, b⟩ ∧
    handler cfg req (mapSet m ip [t0, t1, t2, t3, t4, t5, t6, t7]) t8 outs =
      .ok ⟨⟨429, some retryAfterSeconds, .errObj "Too many requests"⟩,
           mapSet m ip [t0, t1, t2, t3, t4, t5, t6, t7], 0, []⟩ ∧
    retryAfterSeconds = 60 := by
  have hW : RATE_LIMIT_WINDOW_MS = 60000 := rfl
  rw [hW] at hspan
  have s0 : rateLimitStep m ip t0 = .admitted (mapSet m ip ([] ++ [t0])) := by
    refine rateLimitStep_run m ip t0 [] ?_ (by norm_num [RATE_LIMIT_MAX])
    rw [hm]; rfl
  have e0 := handler_success cfg req m t0 outs ip (mapSet m ip ([] ++ [t0]))
    json n b hg hk s0 ha hs
  have g1 : (mapGet (mapSet m ip [t0]) ip).getD [] = [t0] := by rw [mapGet_mapSet_self]; rfl
  have w1 : ([t0].filter (fun t => decide (t1 - RATE_LIMIT_WINDOW_MS ≤ t))) = [t0] := by
    refine List.filter_eq_self.mpr ?_
    intro a ha2
    fin_cases ha2
    rw [hW]
    exact decide_eq_true (by omega)
  have s1 : rateLimitStep (mapSet m ip [t0]) ip t1 = .admitted (mapSet m ip ([t0] ++ [t1])) := by
    have hstep := rateLimitStep_run (mapSet m ip [t0]) ip t1 [t0]
      (by rw [g1]; exact w1) (by norm_num [RATE_LIMIT_MAX])
    rw [mapSet_mapSet] at hstep
    exact hstep
  have e1 := handler_success cfg req (mapSet m ip [t0]) t1 outs ip
    (mapSet m ip ([t0] ++ [t1])) json n b hg hk s1 ha hs
  have g2 : (mapGet (mapSet m ip [t0, t1]) ip).getD [] = [t0, t1] := by rw [mapGet_mapSet_self]; rfl
  have w2 : ([t0, t1].filter (fun t => decide (t2 - RATE_LIMIT_WINDOW_MS ≤ t))) = [t0, t1] := by
    refine List.filter_eq_self.mpr ?_
    intro a ha2
    fin_cases ha2 <;> (rw [hW]; exact decide_eq_true (by omega))
  have s2 : rateLimitStep (mapSet m ip [t0, t1]) ip t2 =
      .admitted (mapSet m ip ([t0, t1] ++ [t2])) := by
    have hstep := rateLimitStep_run (mapSet m ip [t0, t1]) ip t2 [t0, t1]
      (by rw [g2]; exact w2) (by norm_num [RATE_LIMIT_MAX])
    rw [mapSet_mapSet] at hstep
    exact hstep
  have e2 := handler_success cfg req (mapSet m ip [t0, t1]) t2 outs ip
    (mapSet m ip ([t0, t1] ++ [t2])) json n b hg hk s2 ha hs
  have g3 : (mapGet (mapSet m ip [t0, t1, t2]) ip).getD [] = [t0, t1, t2] := by
    rw [mapGet_mapSet_self]; rfl
  have w3 : ([t0, t1, t2].filter (fun t => decide (t3 - RATE_LIMIT_WINDOW_MS ≤ t))) =
      [t0, t1, t2] := by
    refine List.filter_eq_self.mpr ?_
    intro a ha2
    fin_cases ha2 <;> (rw [hW]; exact decide_eq_true (by omega))
  have s3 : rateLimitStep (mapSet m ip [t0, t1, t2]) ip t3 =
      .admitted (mapSet m ip ([t0, t1, t2] ++ [t3])) := by
    have hstep := rateLimitStep_run (mapSet m ip [t0, t1, t2]) ip t3 [t0, t1, t2]
      (by rw [g3]; exact w3) (by norm_num [RATE_LIMIT_MAX])
    rw [mapSet_mapSet] at hstep
    exact hstep
  have e3 := handler_success cfg req (mapSet m ip [t0, t1, t2]) t3 outs ip
    (mapSet m ip ([t0, t1, t2] ++ [t3])) json n b hg hk s3 ha hs
  have g4 : (mapGet (mapSet m ip [t0, t1, t2, t3]) ip).getD [] = [t0, t1, t2, t3] := by
    rw [mapGet_mapSet_self]; rfl
  have w4 : ([t0, t1, t2, t3].filter (fun t => decide (t4 - RATE_LIMIT_WINDOW_MS ≤ t))) =
      [t0, t1, t2, t3] := by
    refine List.filter_eq_self.mpr ?_
    intro a ha2
    fin_cases ha2 <;> (rw [hW]; exact decide_eq_true (by omega))
  have s4 : rateLimitStep (mapSet m ip [t0, t1, t2, t3]) ip t4 =
      .admitted (mapSet m ip ([t0, t1, t2, t3] ++ [t4])) := by
    have hstep := rateLimitStep_run (mapSet m ip [t0, t1, t2, t3]) ip t4 [t0, t1, t2, t3]
      (by rw [g4]; exact w4) (by norm_num [RATE_LIMIT_MAX])
    rw [mapSet_mapSet] at hstep
    exact hstep
  have e4 := handler_success cfg req (mapSet m ip [t0, t1, t2, t3]) t4 outs ip
    (mapSet m ip ([t0, t1, t2, t3] ++ [t4])) json n b hg hk s4 ha hs
  have g5 : (mapGet (mapSet m ip [t0, t1, t2, t3, t4]) ip).getD [] = [t0, t1, t2, t3, t4] := by
    rw [mapGet_mapSet_self]; rfl
  have w5 : ([t0, t1, t2, t3, t4].filter (fun t => decide (t5 - RATE_LIMIT_WINDOW_MS ≤ t))) =
      [t0, t1, t2, t3, t4] := by
    refine List.filter_eq_self.mpr ?_
    intro a ha2
    fin_cases ha2 <;> (rw [hW]; exact decide_eq_true (by omega))
  have s5 : rateLimitStep (mapSet m ip [t0, t1, t2, t3, t4]) ip t5 =
      .admitted (mapSet m ip ([t0, t1, t2, t3, t4] ++ [t5])) := by
    have hstep := rateLimitStep_run (mapSet m ip [t0, t1, t2, t3, t4]) ip t5
      [t0, t1, t2, t3, t4] (by rw [g5]; exact w5) (by norm_num [RATE_LIMIT_MAX])
    rw [mapSet_mapSet] at hstep
    exact hstep
  have e5 := handler_success cfg req (mapSet m ip [t0, t1, t2, t3, t4]) t5 outs ip
    (mapSet m ip ([t0, t1, t2, t3, t4] ++ [t5])) json n b hg hk s5 ha hs
  have g6 : (mapGet (mapSet m ip [t0, t1, t2, t3, t4, t5]) ip).getD [] =
      [t0, t1, t2, t3, t4, t5] := by
    rw [mapGet_mapSet_self]; rfl
  have w6 : ([t0, t1, t2, t3, t4, t5].filter
      (fun t => decide (t6 - RATE_LIMIT_WINDOW_MS ≤ t))) = [t0, t1, t2, t3, t4, t5] := by
    refine List.filter_eq_self.mpr ?_
    intro a ha2
    fin_cases ha2 <;> (rw [hW]; exact decide_eq_true (by omega))
  have s6 : rateLimitStep (mapSet m ip [t0, t1, t2, t3, t4, t5]) ip t6 =
      .admitted (mapSet m ip ([t0, t1, t2, t3, t4, t5] ++ [t6])) := by
    have hstep := rateLimitStep_run (mapSet m ip [t0, t1, t2, t3, t4, t5]) ip t6
      [t0, t1, t2, t3, t4, t5] (by rw [g6]; exact w6) (by norm_num [RATE_LIMIT_MAX])
    rw [mapSet_mapSet] at hstep
    exact hstep
  have e6 := handler_success cfg req (mapSet m ip [t0, t1, t2, t3, t4, t5]) t6 outs ip
    (mapSet m ip ([t0, t1, t2, t3, t4, t5] ++ [t6])) json n b hg hk s6 ha hs
  have g7 : (mapGet (mapSet m ip [t0, t1, t2, t3, t4, t5, t6]) ip).getD [] =
      [t0, t1, t2, t3, t4, t5, t6] := by
    rw [mapGet_mapSet_self]; rfl
  have w7 : ([t0, t1, t2, t3, t4, t5, t6].filter
      (fun t => decide (t7 - RATE_LIMIT_WINDOW_MS ≤ t))) = [t0, t1, t2, t3, t4, t5, t6] := by
    refine List.filter_eq_self.mpr ?_
    intro a ha2
    fin_cases ha2 <;> (rw [hW]; exact decide_eq_true (by omega))
  have s7 : rateLimitStep (mapSet m ip [t0, t1, t2, t3, t4, t5, t6]) ip t7 =
      .admitted (mapSet m ip ([t0, t1, t2, t3, t4, t5, t6] ++ [t7])) := by
    have hstep := rateLimitStep_run (mapSet m ip [t0, t1, t2, t3, t4, t5, t6]) ip t7
      [t0, t1, t2, t3, t4, t5, t6] (by rw [g7]; exact w7) (by norm_num [RATE_LIMIT_MAX])
    rw [mapSet_mapSet] at hstep
    exact hstep
  have e7 := handler_success cfg req (mapSet m ip [t0, t1, t2, t3, t4, t5, t6]) t7 outs ip
    (mapSet m ip ([t0, t1, t2, t3, t4, t5, t6] ++ [t7])) json n b hg hk s7 ha hs
  have g8 : (mapGet (mapSet m ip [t0, t1, t2, t3, t4, t5, t6, t7]) ip).getD [] =
      [t0, t1, t2, t3, t4, t5, t6, t7] := by
    rw [mapGet_mapSet_self]; rfl
  have w8 : ([t0, t1, t2, t3, t4, t5, t6, t7].filter
      (fun t => decide (t8 - RATE_LIMIT_WINDOW_MS ≤ t))) = [t0, t1, t2, t3, t4, t5, t6, t7] := by
    refine List.filter_eq_self.mpr ?_
    intro a ha2
    fin_cases ha2 <;> (rw [hW]; exact decide_eq_true (by omega))
  have s8 : rateLimitStep (mapSet m ip [t0, t1, t2, t3, t4, t5, t6, t7]) ip t8 = .rejected :=
    rateLimitStep_stop (mapSet m ip [t0, t1, t2, t3, t4, t5, t6, t7]) ip t8
      [t0, t1, t2, t3, t4, t5, t6, t7] (by rw [g8]; exact w8) (by norm_num [RATE_LIMIT_MAX])
  have e8 := handler_rate_rejected cfg req (mapSet m ip [t0, t1, t2, t3, t4, t5, t6, t7])
    t8 outs ip hg hk s8
  exact ⟨e0, e1, e2, e3, e4, e5, e6, e7, e8, rfl⟩

theorem rate_limit_eight_admits_then_429_witness :
    handler ⟨some "k", none, some "i"⟩ ⟨none, none, some "1.2.3.4", none⟩
        [("1.2.3.4", [0, 1, 2, 3, 4, 5, 6, 7])] 8
        (fun _ => .response 200 "" [("id", .str "sess_1")]) =
      .ok ⟨⟨429, some retryAfterSeconds, .errObj "Too many requests"⟩,
           [("1.2.3.4", [0, 1, 2, 3, 4, 5, 6, 7])], 0, []⟩ ∧
    retryAfterSeconds = 60 := by
  have h := rate_limit_eight_admits_then_429 ⟨some "k", none, some "i"⟩
    ⟨none, none, some "1.2.3.4", none⟩ "1.2.3.4" []
    (fun _ => .response 200 "" [("id", .str "sess_1")]) [("id", .str "sess_1")] 1 []
    0 1 2 3 4 5 6 7 8 rfl rfl rfl rfl rfl
    (by decide) (by decide) (by decide) (by decide) (by decide) (by decide) (by decide)
    (by decide) (by decide)
  exact ⟨h.2.2.2.2.2.2.2.2.1, h.2.2.2.2.2.2.2.2.2⟩

/-! ## Claim C8 -/

/-- Claim C8 counterexample: a key admitted 8 times at clock 0 and
rate-limited on its 9th request is still rejected with 429 when the clock
has advanced by exactly 60000 ms, because the pruning predicate
`t >= now - window` keeps a timestamp that is exactly one window old;
recovery needs an advance of strictly more than 60000 ms. -/
theorem window_boundary_counterexample :
    (runHandlerSeq ⟨some "k", none, some "i"⟩ ⟨none, none, some "a", none⟩
        (fun _ => .response 200 "" []) [] [0, 0, 0, 0, 0, 0, 0, 0, 0, 60000]).1.map
      (fun r => r.status) = [200, 200, 200, 200, 200, 200, 200, 200, 429, 429] := by
  decide

/-- Claim C8 (amended): the origin guard is skipped whenever the request
carries no origin/referer string or the configured allow-list is empty;
and a key whose stored timestamps are all at least one window older than
the current clock (clock advance strictly greater than 60000 ms past the
last of them) is admitted again on its next eight requests, each admission
rewriting the entry with the pruned (empty) list plus the new timestamp. -/
theorem fail_open_and_window_recovery
    (env : Option String) (raw : String)
    (cfg : Config) (req : Request) (ip : String) (m : RateMap) (ts : List Int)
    (tlast now : Int) (outs : Nat → UpstreamResult) (json : List (String × JVal))
    (n : Nat) (b : List Nat)
    (hg : originGuard (allowedOrigins cfg.allowedOriginsEnv) (rawOrigin req) = none)
    (hk : clientKey req = .ok ip)
    (ha : truthyS cfg.apiKey = true)
    (hs : sessionLoop 0 [outs 0, outs 1, outs 2] = (.success json, n, b))
    (hm : mapGet m ip = some ts)
    (hold : ∀ x ∈ ts, x ≤ tlast)
    (hadv : tlast + RATE_LIMIT_WINDOW_MS < now) :
    (raw = "" ∨ allowedOrigins env = [] → originGuard (allowedOrigins env) raw = none) ∧
    handler cfg req m now outs =
      .ok ⟨⟨200, none, .sessionObj (setField json "instructions" (.str (instructionsOf cfg)))⟩,
           mapSet m ip [now], n, b⟩ ∧
    handler cfg req (mapSet m ip [now]) now outs =
      .ok ⟨⟨200, none, .sessionObj (setField json "instructions" (.str (instructionsOf cfg)))⟩,
           mapSet m ip [now, now], n, b⟩ ∧
    handler cfg req (mapSet m ip [now, now]) now outs =
      .ok ⟨⟨200, none, .sessionObj (setField json "instructions" (.str (instructionsOf cfg)))⟩,
           mapSet m ip [now, now, now], n, b⟩ ∧
    handler cfg req (mapSet m ip [now, now, now]) now outs =
      .ok ⟨⟨200, none, .sessionObj (setField json "instructions" (.str (instructionsOf cfg)))⟩,
           mapSet m ip [now, now, now, now], n, b⟩ ∧
    handler cfg req (mapSet m ip [now, now, now, now]) now outs =
      .ok ⟨⟨200, none, .sessionObj (setField json "instructions" (.str (instructionsOf cfg)))⟩,
           mapSet m ip [now, now, now, now, now], n, b⟩ ∧
    handler cfg req (mapSet m ip [now, now, now, now, now]) now outs =
      .ok ⟨⟨200, none, .sessionObj (setField json "instructions" (.str (instructionsOf cfg)))⟩,
           mapSet m ip [now, now, now, now, now, now], n, b⟩ ∧
    handler cfg req (mapSet m ip [now, now, now, now, now, now]) now outs =
      .ok ⟨⟨200, none, .sessionObj (setField json "instructions" (.str (instructionsOf cfg)))⟩,
           mapSet m ip [now, now, now, now, now, now, now], n, b⟩ ∧
    handler cfg req (mapSet m ip [now, now, now, now, now, now, now]) now outs =
      .ok ⟨⟨200, none, .sessionObj (setField json "instructions" (.str (instructionsOf cfg)))⟩,
           mapSet m ip [now, now, now, now, now, now, now, now], n, b⟩ := by
  have hW : RATE_LIMIT_WINDOW_MS = 60000 := rfl
  rw [hW] at hadv
  have hfo : raw = "" ∨ allowedOrigins env = [] → originGuard (allowedOrigins env) raw = none := by
    intro hcase
    rcases hcase with hr | hr
    · simp [originGuard, hr]
    · simp [originGuard, hr]
  have w0 : ts.filter (fun t => decide (now - RATE_LIMIT_WINDOW_MS ≤ t)) = [] := by
    refine List.filter_eq_nil_iff.mpr ?_
    intro a ha2
    intro hdec
    have h1 := of_decide_eq_true hdec
    have h2 := hold a ha2
    rw [hW] at h1
    omega
  have s0 : rateLimitStep m ip now = .admitted (mapSet m ip ([] ++ [now])) := by
    refine rateLimitStep_run m ip now [] ?_ (by norm_num [RATE_LIMIT_MAX])
    rw [hm]
    exact w0
  have e0 := handler_success cfg req m now outs ip (mapSet m ip ([] ++ [now]))
    json n b hg hk s0 ha hs
  have win : ∀ a : Int, a = now → decide (now - RATE_LIMIT_WINDOW_MS ≤ a) = true := by
    intro a haa
    subst haa
    rw [hW]
    exact decide_eq_true (by omega)
  have wrep : ∀ l : List Int, (∀ x ∈ l, x = now) →
      l.filter (fun t => decide (now - RATE_LIMIT_WINDOW_MS ≤ t)) = l := by
    intro l hl
    exact List.filter_eq_self.mpr (fun a ha2 => win a (hl a ha2))
  have s1 : rateLimitStep (mapSet m ip [now]) ip now =
      .admitted (mapSet m ip ([now] ++ [now])) := by
    have hstep := rateLimitStep_run (mapSet m ip [now]) ip now [now]
      (by rw [mapGet_mapSet_self]; exact wrep [now] (by simp))
      (by norm_num [RATE_LIMIT_MAX])
    rw [mapSet_mapSet] at hstep
    exact hstep
  have e1 := handler_success cfg req (mapSet m ip [now]) now outs ip
    (mapSet m ip ([now] ++ [now])) json n b hg hk s1 ha hs
  have s2 : rateLimitStep (mapSet m ip [now, now]) ip now =
      .admitted (mapSet m ip ([now, now] ++ [now])) := by
    have hstep := rateLimitStep_run (mapSet m ip [now, now]) ip now [now, now]
      (by rw [mapGet_mapSet_self]; exact wrep [now, now] (by simp))
      (by norm_num [RATE_LIMIT_MAX])
    rw [mapSet_mapSet] at hstep
    exact hstep
  have e2 := handler_success cfg req (mapSet m ip [now, now]) now outs ip
    (mapSet m ip ([now, now] ++ [now])) json n b hg hk s2 ha hs
  have s3 : rateLimitStep (mapSet m ip [now, now, now]) ip now =
      .admitted (mapSet m ip ([now, now, now] ++ [now])) := by
    have hstep := rateLimitStep_run (mapSet m ip [now, now, now]) ip now [now, now, now]
      (by rw [mapGet_mapSet_self]; exact wrep [now, now, now] (by simp))
      (by norm_num [RATE_LIMIT_MAX])
    rw [mapSet_mapSet] at hstep
    exact hstep
  have e3 := handler_success cfg req (mapSet m ip [now, now, now]) now outs ip
    (mapSet m ip ([now, now, now] ++ [now])) json n b hg hk s3 ha hs
  have s4 : rateLimitStep (mapSet m ip [now, now, now, now]) ip now =
      .admitted (mapSet m ip ([now, now, now, now] ++ [now])) := by
    have hstep := rateLimitStep_run (mapSet m ip [now, now, now, now]) ip now
      [now, now, now, now]
      (by rw [mapGet_mapSet_self]; exact wrep [now, now, now, now] (by simp))
      (by norm_num [RATE_LIMIT_MAX])
    rw [mapSet_mapSet] at hstep
    exact hstep
  have e4 := handler_success cfg req (mapSet m ip [now, now, now, now]) now outs ip
    (mapSet m ip ([now, now, now, now] ++ [now])) json n b hg hk s4 ha hs
  have s5 : rateLimitStep (mapSet m ip [now, now, now, now, now]) ip now =
      .admitted (mapSet m ip ([now, now, now, now, now] ++ [now])) := by
    have hstep := rateLimitStep_run (mapSet m ip [now, now, now, now, now]) ip now
      [now, now, now, now, now]
      (by rw [mapGet_mapSet_self]; exact wrep [now, now, now, now, now] (by simp))
      (by norm_num [RATE_LIMIT_MAX])
    rw [mapSet_mapSet] at hstep
    exact hstep
  have e5 := handler_success cfg req (mapSet m ip [now, now, now, now, now]) now outs ip
    (mapSet m ip ([now, now, now, now, now] ++ [now])) json n b hg hk s5 ha hs
  have s6 : rateLimitStep (mapSet m ip [now, now, now, now, now, now]) ip now =
      .admitted (mapSet m ip ([now, now, now, now, now, now] ++ [now])) := by
    have hstep := rateLimitStep_run (mapSet m ip [now, now, now, now, now, now]) ip now
      [now, now, now, now, now, now]
      (by rw [mapGet_mapSet_self]; exact wrep [now, now, now, now, now, now] (by simp))
      (by norm_num [RATE_LIMIT_MAX])
    rw [mapSet_mapSet] at hstep
    exact hstep
  have e6 := handler_success cfg req (mapSet m ip [now, now, now, now, now, now]) now outs ip
    (mapSet m ip ([now, now, now, now, now, now] ++ [now])) json n b hg hk s6 ha hs
  have s7 : rateLimitStep (mapSet m ip [now, now, now, now, now, now, now]) ip now =
      .admitted (mapSet m ip ([now, now, now, now, now, now, now] ++ [now])) := by
    have hstep := rateLimitStep_run (mapSet m ip [now, now, now, now, now, now, now]) ip now
      [now, now, now, now, now, now, now]
      (by rw [mapGet_mapSet_self]; exact wrep [now, now, now, now, now, now, now] (by simp))
      (by norm_num [RATE_LIMIT_MAX])
    rw [mapSet_mapSet] at hstep
    exact hstep
  have e7 := handler_success cfg req (mapSet m ip [now, now, now, now, now, now, now]) now
    outs ip (mapSet m ip ([now, now, now, now, now, now, now] ++ [now])) json n b hg hk s7 ha hs
  exact ⟨hfo, e0, e1, e2, e3, e4, e5, e6, e7⟩

theorem fail_open_and_window_recovery_witness :
    originGuard (allowedOrigins (some "http://a.com")) "" = none ∧
    handler ⟨some "k", none, some "i"⟩ ⟨none, none, some "1.2.3.4", none⟩
        [("1.2.3.4", [-70000])] 0 (fun _ => .response 200 "" [("id", .str "sess_1")]) =
      .ok ⟨⟨200, none, .sessionObj [("id", .str "sess_1"), ("instructions", .str "i")]⟩,
           [("1.2.3.4", [0])], 1, []⟩ := by
  have h := fail_open_and_window_recovery (some "http://a.com") "" ⟨some "k", none, some "i"⟩
    ⟨none, none, some "1.2.3.4", none⟩ "1.2.3.4" [("1.2.3.4", [-70000])] [-70000] (-70000) 0
    (fun _ => .response 200 "" [("id", .str "sess_1")]) [("id", .str "sess_1")] 1 []
    rfl rfl rfl rfl rfl (by decide) (by decide)
  exact ⟨h.1 (Or.inl rfl), h.2.1⟩

/-! ## Claim C9 -/

/-- Claim C9: every invocation preserves the invariant that each stored
timestamp list has length at most 8: an entry is only ever written back as
a pruned in-window list of length at most 7 plus one appended timestamp,
and no other entry is touched. -/
theorem ledger_entries_bounded (cfg : Config) (req : Request) (m : RateMap) (now : Int)
    (outs : Nat → UpstreamResult) (r : HandlerResult)
    (hinv : ∀ k l, mapGet m k = some l → l.length ≤ RATE_LIMIT_MAX)
    (h : handler cfg req m now outs = .ok r) :
    ∀ k l, mapGet r.rateMap k = some l → l.length ≤ RATE_LIMIT_MAX := by
  cases hg : originGuard (allowedOrigins cfg.allowedOriginsEnv) (rawOrigin req) with
  | some resp =>
    rw [handler_guard_some cfg req m now outs resp hg] at h
    obtain rfl : (⟨resp, m, 0, []⟩ : HandlerResult) = r := by injection h
    exact hinv
  | none =>
    cases hkc : clientKey req with
    | error e =>
      rw [handler_key_error cfg req m now outs e hg hkc] at h
      simp at h
    | ok ip =>
      cases hr : rateLimitStep m ip now with
      | rejected =>
        rw [handler_rate_rejected cfg req m now outs ip hg hkc hr] at h
        obtain rfl : (⟨⟨429, some retryAfterSeconds, .errObj "Too many requests"⟩, m, 0, []⟩ :
            HandlerResult) = r := by injection h
        exact hinv
      | admitted m' =>
        obtain ⟨l, hf, hlen, rfl⟩ := rateLimitStep_admitted_inv m ip now m' hr
        have key : ∀ k l2, mapGet (mapSet m ip (l ++ [now])) k = some l2 →
            l2.length ≤ RATE_LIMIT_MAX := by
          intro k l2 hget
          by_cases hk2 : k = ip
          · subst hk2
            rw [mapGet_mapSet_self] at hget
            obtain rfl : l ++ [now] = l2 := by injection hget
            have h8 : RATE_LIMIT_MAX = 8 := rfl
            rw [h8] at hlen ⊢
            simp only [List.length_append, List.length_singleton]
            omega
          · rw [mapGet_mapSet_ne m ip k _ hk2] at hget
            exact hinv k l2 hget
        cases ha : truthyS cfg.apiKey with
        | false =>
          rw [handler_no_key cfg req m now outs ip _ hg hkc hr ha] at h
          obtain rfl : (⟨⟨500, none, .errObj "OPENAI_API_KEY niet ingesteld in Vercel"⟩,
              mapSet m ip (l ++ [now]), 0, []⟩ : HandlerResult) = r := by injection h
          exact key
        | true =>
          rcases hsl : sessionLoop 0 [outs 0, outs 1, outs 2] with ⟨lr, n2, b2⟩
          cases lr with
          | success js =>
            rw [handler_success cfg req m now outs ip _ js n2 b2 hg hkc hr ha hsl] at h
            obtain rfl : (⟨⟨200, none,
                .sessionObj (setField js "instructions" (.str (instructionsOf cfg)))⟩,
                mapSet m ip (l ++ [now]), n2, b2⟩ : HandlerResult) = r := by injection h
            exact key
          | gatewayError d =>
            rw [handler_gateway cfg req m now outs ip _ d n2 b2 hg hkc hr ha hsl] at h
            obtain rfl : (⟨⟨502, none, .detailErr "OpenAI realtime session creation failed" d⟩,
                mapSet m ip (l ++ [now]), n2, b2⟩ : HandlerResult) = r := by injection h
            exact key

theorem ledger_entries_bounded_witness :
    List.length [(0 : Int)] ≤ RATE_LIMIT_MAX := by
  have h := ledger_entries_bounded ⟨some "k", none, some "i"⟩
    ⟨none, none, some "1.2.3.4", none⟩ [] 0 (fun _ => .response 200 "" [])
    ⟨⟨200, none, .sessionObj [("instructions", .str "i")]⟩, [("1.2.3.4", [0])], 1, []⟩
    (fun k l hkl => by simp [mapGet] at hkl) rfl
  exact h "1.2.3.4" [0] rfl

/-! ## Claim C10 -/

/-- Claim C10: a request rejected with HTTP 429 leaves the rate-limit
ledger exactly as it was: neither the pruning of expired timestamps nor any
append is written back on the rejection path, and no outbound call or
backoff happens. -/
theorem rejected_request_leaves_ledger (cfg : Config) (req : Request) (m : RateMap)
    (now : Int) (outs : Nat → UpstreamResult) (r : HandlerResult)
    (h : handler cfg req m now outs = .ok r)
    (h429 : r.response.status = 429) :
    r.rateMap = m ∧ r.upstreamCalls = 0 ∧ r.backoffs = [] := by
  cases hg : originGuard (allowedOrigins cfg.allowedOriginsEnv) (rawOrigin req) with
  | some resp =>
    rw [handler_guard_some cfg req m now outs resp hg] at h
    obtain rfl : (⟨resp, m, 0, []⟩ : HandlerResult) = r := by injection h
    exact ⟨rfl, rfl, rfl⟩
  | none =>
    cases hkc : clientKey req with
    | error e =>
      rw [handler_key_error cfg req m now outs e hg hkc] at h
      simp at h
    | ok ip =>
      cases hr : rateLimitStep m ip now with
      | rejected =>
        rw [handler_rate_rejected cfg req m now outs ip hg hkc hr] at h
        obtain rfl : (⟨⟨429, some retryAfterSeconds, .errObj "Too many requests"⟩, m, 0, []⟩ :
            HandlerResult) = r := by injection h
        exact ⟨rfl, rfl, rfl⟩
      | admitted m' =>
        cases ha : truthyS cfg.apiKey with
        | false =>
          rw [handler_no_key cfg req m now outs ip m' hg hkc hr ha] at h
          obtain rfl : (⟨⟨500, none, .errObj "OPENAI_API_KEY niet ingesteld in Vercel"⟩,
              m', 0, []⟩ : HandlerResult) = r := by injection h
          simp at h429
        | true =>
          rcases hsl : sessionLoop 0 [outs 0, outs 1, outs 2] with ⟨lr, n2, b2⟩
          cases lr with
          | success js =>
            rw [handler_success cfg req m now outs ip m' js n2 b2 hg hkc hr ha hsl] at h
            obtain rfl : (⟨⟨200, none,
                .sessionObj (setField js "instructions" (.str (instructionsOf cfg)))⟩,
                m', n2, b2⟩ : HandlerResult) = r := by injection h
            simp at h429
          | gatewayError d =>
            rw [handler_gateway cfg req m now outs ip m' d n2 b2 hg hkc hr ha hsl] at h
            obtain rfl : (⟨⟨502, none, .detailErr "OpenAI realtime session creation failed" d⟩,
                m', n2, b2⟩ : HandlerResult) = r := by injection h
            simp at h429

theorem rejected_request_leaves_ledger_witness :
    HandlerResult.rateMap
        ⟨⟨429, some retryAfterSeconds, .errObj "Too many requests"⟩,
         [("1.2.3.4", [0, 0, 0, 0, 0, 0, 0, 0])], 0, []⟩ =
      [("1.2.3.4", [0, 0, 0, 0, 0, 0, 0, 0])] :=
  (rejected_request_leaves_ledger ⟨some "k", none, some "i"⟩
    ⟨none, none, some "1.2.3.4", none⟩ [("1.2.3.4", [0, 0, 0, 0, 0, 0, 0, 0])] 0
    (fun _ => .response 200 "" [])
    ⟨⟨429, some retryAfterSeconds, .errObj "Too many requests"⟩,
     [("1.2.3.4", [0, 0, 0, 0, 0, 0, 0, 0])], 0, []⟩ rfl rfl).1

end CyberAgent
